import Mathlib

/-!
Verification development for the FinanceDecoder repository.

The subject is the worksheet tidy-extractor `tidy_from_file` in
`src/scraper/tidy_decoder.py`.  The Python function reads one workbook sheet
into a pandas DataFrame (a rectangular grid of cells, missing cells being NaN)
and converts it to a list of long-format observation records.  We embed the
grid-to-records logic shallowly: cells are blank, numeric or text; the grid is
a rectangular array given by its dimensions and a cell function; fallible
steps (the `.index[0]` lookup, `df[4]` column access, `int(yr)` conversion)
return `Except`.
-/

namespace FinanceDecoder

/-- A worksheet cell as pandas delivers it: NaN (blank), a number, or text.
Numbers are modelled as rationals (Python ints and floats; NaN itself is the
blank case since `pd.read_excel` uses NaN for empty cells). -/
inductive Cell where
  | blank : Cell
  | num (q : ℚ) : Cell
  | txt (s : String) : Cell
  deriving DecidableEq, Repr

/-- `pd.isna` on a cell: true exactly for the blank (NaN) cell. -/
def Cell.isna : Cell → Bool
  | .blank => true
  | _ => false

/-- The DataFrame produced by `pd.read_excel(path, sheet_name="Input",
header=None)`: a rectangular grid with `nrows` rows and `ncols` integer-labelled
columns.  Only `cell r c` for `r < nrows`, `c < ncols` is ever read. -/
structure Grid where
  nrows : ℕ
  ncols : ℕ
  cell : ℕ → ℕ → Cell

/-- The exceptions the Python code can raise on a loaded grid:
`df[4]` raises `KeyError` when the frame has no column 4; `.index[0]` on the
empty selection raises `IndexError`; `int(yr)` raises `ValueError` on text
that is not an integer literal. -/
inductive TidyError where
  | keyError : TidyError
  | indexError : TidyError
  | valueError : TidyError
  deriving DecidableEq, Repr

/-- `isinstance(x, (int, float)) and 1900 <= x <= 2100` on a cell value:
true exactly for numeric cells in the inclusive year range.  (NaN fails the
comparison in Python and is the blank cell here; booleans are 0/1 and fail
the range test.) -/
def isYearLike (x : Cell) : Bool :=
  match x with
  | .num q => decide (1900 ≤ q ∧ q ≤ 2100)
  | _ => false

/-- Header-row detection, line 31 of `tidy_decoder.py`:
`df[df[4].apply(lambda x: isinstance(x,(int,float)) and 1900<=x<=2100)].index[0]`.
`df[4]` raises `KeyError` when there is no column 4; `.index[0]` raises
`IndexError` when no row qualifies; otherwise the first qualifying row index
is returned. -/
def findHeaderRow (g : Grid) : Except TidyError ℕ :=
  if g.ncols ≤ 4 then .error .keyError
  else
    match (List.range g.nrows).find? (fun r => isYearLike (g.cell r 4)) with
    | some r => .ok r
    | none => .error .indexError

/-- Python `int(x)` truncates a number toward zero. -/
def pyTrunc (q : ℚ) : ℤ :=
  if 0 ≤ q then ⌊q⌋ else -⌊-q⌋

/-- Decimal-digit run to a natural number; `none` on a non-digit or on the
empty run. -/
def digitsToNat : List Char → Option ℕ
  | [] => none
  | [ch] => if ch.isDigit then some (ch.toNat - '0'.toNat) else none
  | ch :: rest =>
    if ch.isDigit then
      match digitsToNat rest with
      | some n => some ((ch.toNat - '0'.toNat) * 10 ^ rest.length + n)
      | none => none
    else none

/-- Python `int(s)` on text: an optional sign followed by decimal digits
(Python additionally tolerates surrounding whitespace and grouping
underscores, which never arise in this code's inputs); anything else raises
`ValueError`, modelled as `none`. -/
def pyIntOfText (l : List Char) : Option ℤ :=
  match l with
  | '-' :: rest => (digitsToNat rest).map (fun n => -(n : ℤ))
  | '+' :: rest => (digitsToNat rest).map (fun n => (n : ℤ))
  | _ => (digitsToNat l).map (fun n => (n : ℤ))

/-- Python `int(yr)` on a non-NaN cell value: numbers truncate toward zero,
text must be an integer literal, anything else raises `ValueError`. -/
def pyInt (x : Cell) : Option ℤ :=
  match x with
  | .num q => some (pyTrunc q)
  | .txt s => pyIntOfText s.toList
  | .blank => none

/-- `pd.notna(x) and x != 0` on a cell: blank fails `notna`; a number must be
nonzero; text compares unequal to the integer 0 in Python, hence counts. -/
def nonZeroData (x : Cell) : Bool :=
  match x with
  | .blank => false
  | .num q => decide (q ≠ 0)
  | .txt _ => true

/-- `segment.apply(lambda x: pd.notna(x) and x != 0).any()` over
`df.loc[start:endI, c]` (pandas `.loc` slices are inclusive of both ends). -/
def segmentHasData (g : Grid) (start endI c : ℕ) : Bool :=
  (List.range' start (endI + 1 - start)).any (fun r => nonZeroData (g.cell r c))

/-- The year-column validation loop (lines 39–58), processing the absolute
column indices of `raw_years` in order.  A blank header cell is skipped; when
the inspected row range is empty the column is skipped; when the data segment
has a non-blank nonzero value the pair `(int(yr), col)` is kept, `int`
raising `ValueError` on a non-integer text header. -/
def yearColsAux (g : Grid) (yearRow : ℕ) : List ℕ → Except TidyError (List (ℤ × ℕ))
  | [] => .ok []
  | c :: rest =>
    let yr := g.cell yearRow c
    if yr.isna then yearColsAux g yearRow rest
    else
      let start := yearRow + 2
      let endI := min 27 (g.nrows - 1)
      if start > endI then yearColsAux g yearRow rest
      else if segmentHasData g start endI c then
        match pyInt yr with
        | some n =>
          match yearColsAux g yearRow rest with
          | .ok others => .ok ((n, c) :: others)
          | .error e => .error e
        | none => .error .valueError
      else yearColsAux g yearRow rest

/-- `valid_years` zipped with `valid_cols`: the retained Year Column Set, as
year/absolute-column pairs, built from columns 4 … `ncols - 1` of the header
row. -/
def buildYearCols (g : Grid) (yearRow : ℕ) : Except TidyError (List (ℤ × ℕ)) :=
  yearColsAux g yearRow ((List.range (g.ncols - 4)).map (fun o => 4 + o))

/-- The ASCII whitespace stripped by Python's `str.strip()` (which also
strips rarer Unicode spaces, never present in these worksheets). -/
def isPySpace (ch : Char) : Bool :=
  ch = ' ' ∨ ch = '\t' ∨ ch = '\n' ∨ ch = '\r' ∨ ch = '\x0b' ∨ ch = '\x0c'

/-- Python `s.strip()`: drop leading and trailing whitespace. -/
def pyStrip (s : String) : String :=
  ⟨((s.toList.dropWhile isPySpace).reverse.dropWhile isPySpace).reverse⟩

/-- The variable-row label test of lines 64–65: NaN or whitespace-only text is
blank; otherwise the stripped label text.  A numeric cell stringifies
(`str(label)`) to its decimal text, never blank; we use the rational's
canonical rendering, which differs from CPython float formatting only
cosmetically and contains no whitespace. -/
def rowLabel (x : Cell) : Option String :=
  match x with
  | .blank => none
  | .num q => some (toString q)
  | .txt s => if pyStrip s = "" then none else some (pyStrip s)

/-- The variable-row scan of lines 61–71 over a list of consecutive row
indices: a blank label increments the streak and scanning breaks when the
streak reaches 5; a non-blank label resets the streak and records
`(trimmed label, row)`. -/
def scanVarRowsAux (g : Grid) (streak : ℕ) : List ℕ → List (String × ℕ)
  | [] => []
  | r :: rest =>
    match rowLabel (g.cell r 0) with
    | none =>
      if streak + 1 ≥ 5 then []
      else scanVarRowsAux g (streak + 1) rest
    | some lab => (lab, r) :: scanVarRowsAux g 0 rest

/-- `var_rows`: the scan runs over rows `year_row + 2, …, nrows - 1`. -/
def varRows (g : Grid) (yearRow : ℕ) : List (String × ℕ) :=
  scanVarRowsAux g 0 (List.range' (yearRow + 2) (g.nrows - (yearRow + 2)))

/-- One tidy observation record (lines 81–89).  The Python dict field
`variable` is a Lean keyword, hence `varLabel`.  `value` is the cell content
`df.iat[r, col_idx]` verbatim, so it can be numeric or text. -/
structure Obs where
  state : Option String
  city : String
  varLabel : String
  year : ℤ
  value : Cell
  deriving DecidableEq, Repr

/-- The record-emission loop of lines 74–89: every variable row crossed with
every retained year column, skipping blank cells only. -/
def buildRecords (g : Grid) (state : Option String) (city : String)
    (vars : List (String × ℕ)) (cols : List (ℤ × ℕ)) : List Obs :=
  vars.flatMap fun lr =>
    cols.filterMap fun yc =>
      let v := g.cell lr.2 yc.2
      if v.isna then none
      else some ⟨state, city, lr.1, yc.1, v⟩

/-- The grid-to-records part of `tidy_from_file`, for a given (state, city)
pair: header detection, year-column validation, variable-row scan, record
emission. -/
def tidyFromGrid (g : Grid) (state : Option String) (city : String) :
    Except TidyError (List Obs) :=
  match findHeaderRow g with
  | .error e => .error e
  | .ok yearRow =>
    match buildYearCols g yearRow with
    | .error e => .error e
    | .ok cols => .ok (buildRecords g state city (varRows g yearRow) cols)

/-- `os.path.splitext` on a base name, over its character list: split off the
suffix starting at the last dot, unless every character before that dot is
itself a dot (so `.bashrc`-style names keep their dot). -/
def splitextData (l : List Char) : List Char :=
  match (l.reverse.findIdx? (fun ch => ch = '.')) with
  | none => l
  | some j =>
    let i := l.length - 1 - j
    if (l.take i).all (fun ch => ch = '.') then l else l.take i

/-- `os.path.splitext(base)[0]` as a String function. -/
def stripExt (base : String) : String :=
  ⟨splitextData base.toList⟩

/-- `name.split("_", 1)` on a character list: split at the first underscore
only. -/
def splitFirstUnderscore : List Char → Option (List Char × List Char)
  | [] => none
  | ch :: rest =>
    if ch = '_' then some ([], rest)
    else
      match splitFirstUnderscore rest with
      | none => none
      | some (a, b) => some (ch :: a, b)

/-- Lines 22–25: `state, city = name_no_ext.split("_", 1)` when an underscore
is present, otherwise `state = None`, `city = name_no_ext`. -/
def stateCityOfName (base : String) : Option String × String :=
  let n := stripExt base
  match splitFirstUnderscore n.toList with
  | none => (none, n)
  | some (a, b) => (some ⟨a⟩, ⟨b⟩)

/-- `tidy_from_file` on an already-loaded grid: the base filename supplies the
(state, city) labels, the grid supplies the records. -/
def tidy_from_file (base : String) (g : Grid) : Except TidyError (List Obs) :=
  let sc := stateCityOfName base
  tidyFromGrid g sc.1 sc.2

/-- The grouping key used by the round-trip property:
(region, locality, variable, year). -/
def Obs.key (o : Obs) : Option String × String × String × ℤ :=
  (o.state, o.city, o.varLabel, o.year)

/-- The batch driver `main` (lines 109–122) concatenates per-file results and
catches any exception per file, skipping that file. -/
def batchRecords (ws : List (String × Grid)) : List Obs :=
  (ws.map (fun p => ((tidy_from_file p.1 p.2).toOption.getD []))).flatten

/-! Concrete worksheets used to exercise the embedding. -/

/-- A 29-row worksheet: header (year 2020) at row 0, labels in column 0 at
rows 2, 6, 10, 14, 18, 22, 26 and at row 28 (worksheet row 29, 1-indexed),
data 5 at (2,4) and exactly 0 at (28,4). -/
def gridC1 : Grid :=
  ⟨29, 5, fun r c =>
    if r = 0 ∧ c = 4 then .num 2020
    else if c = 0 ∧ (r = 2 ∨ r = 6 ∨ r = 10 ∨ r = 14 ∨ r = 18 ∨ r = 22 ∨ r = 26) then .txt "a"
    else if c = 0 ∧ r = 28 then .txt "z"
    else if c = 4 ∧ r = 2 then .num 5
    else if c = 4 ∧ r = 28 then .num 0
    else .blank⟩

/-- A fully blank 2×5 worksheet: no year-like value anywhere in column 4. -/
def gridC2 : Grid := ⟨2, 5, fun _ _ => .blank⟩

/-- A 3×5 worksheet whose only data cell holds the text "n/a". -/
def gridC3 : Grid :=
  ⟨3, 5, fun r c =>
    if r = 0 ∧ c = 4 then .num 2020
    else if r = 2 ∧ c = 0 then .txt "lab"
    else if r = 2 ∧ c = 4 then .txt "n/a"
    else .blank⟩

/-- A 4×5 worksheet with two variable rows carrying the same label "x". -/
def gridC4 : Grid :=
  ⟨4, 5, fun r c =>
    if r = 0 ∧ c = 4 then .num 2020
    else if c = 0 ∧ (r = 2 ∨ r = 3) then .txt "x"
    else if c = 4 ∧ r = 2 then .num 1
    else if c = 4 ∧ r = 3 then .num 2
    else .blank⟩

/-- A 3×5 worksheet with a single variable row "x" and value 1 for 2020. -/
def gridC4b : Grid :=
  ⟨3, 5, fun r c =>
    if r = 0 ∧ c = 4 then .num 2020
    else if r = 2 ∧ c = 0 then .txt "x"
    else if r = 2 ∧ c = 4 then .num 1
    else .blank⟩

/-- A 4×5 worksheet with two distinct variable rows "x" and "y". -/
def gridC4w : Grid :=
  ⟨4, 5, fun r c =>
    if r = 0 ∧ c = 4 then .num 2020
    else if r = 2 ∧ c = 0 then .txt "x"
    else if r = 3 ∧ c = 0 then .txt "y"
    else if c = 4 ∧ (r = 2 ∨ r = 3) then .num 1
    else .blank⟩

/-- A 3×6 worksheet whose header row has the non-blank text "abc" in column 5
over a data segment with the nonzero value 3. -/
def gridC5 : Grid :=
  ⟨3, 6, fun r c =>
    if r = 0 ∧ c = 4 then .num 2020
    else if r = 0 ∧ c = 5 then .txt "abc"
    else if r = 2 ∧ c = 5 then .num 3
    else .blank⟩

/-- A 3×6 worksheet with a numeric year header 2020 in column 4 over the
nonzero value 7, and a year header 2021 in column 5 over a blank segment. -/
def gridC5w : Grid :=
  ⟨3, 6, fun r c =>
    if r = 0 ∧ c = 4 then .num 2020
    else if r = 0 ∧ c = 5 then .num 2021
    else if r = 2 ∧ c = 4 then .num 7
    else .blank⟩

/-- A 9-row worksheet: header at row 0, label "a" at row 2, rows 3–7 blank
in column 0 (a 5-row blank run), and a label "b" at row 8 below the run. -/
def gridC6w : Grid :=
  ⟨9, 5, fun r c =>
    if r = 0 ∧ c = 4 then .num 2020
    else if r = 2 ∧ c = 0 then .txt "a"
    else if r = 8 ∧ c = 0 then .txt "b"
    else if r = 2 ∧ c = 4 then .num 1
    else .blank⟩

/-- A 27-row worksheet whose first year-like value in column 4 sits at row 26,
so the first data row (28) lies past the index-27 inspection ceiling. -/
def gridC10w : Grid :=
  ⟨27, 5, fun r c => if r = 26 ∧ c = 4 then .num 2020 else .blank⟩

/-! Helper lemmas about the embedded extractor. -/

/-- Unfolding of the monadic pipeline of `tidyFromGrid`. -/
theorem tidyFromGrid_eq (g : Grid) (st : Option String) (ct : String) :
    tidyFromGrid g st ct =
      match findHeaderRow g with
      | .error e => .error e
      | .ok y =>
        match buildYearCols g y with
        | .error e => .error e
        | .ok cols => .ok (buildRecords g st ct (varRows g y) cols) := rfl

/-- A successful extraction decomposes into the three stages. -/
theorem tidyFromGrid_ok_elim {g : Grid} {st : Option String} {ct : String} {l : List Obs}
    (h : tidyFromGrid g st ct = .ok l) :
    ∃ y cols, findHeaderRow g = .ok y ∧ buildYearCols g y = .ok cols ∧
      l = buildRecords g st ct (varRows g y) cols := by
  unfold tidyFromGrid at h
  split at h
  · simp at h
  · rename_i y hy
    split at h
    · simp at h
    · rename_i cols hc
      refine ⟨y, cols, hy, hc, ?_⟩
      injection h with h'
      exact h'.symm

/-- A failed header detection fails the whole extraction. -/
theorem tidyFromGrid_error_of_header {g : Grid} {st : Option String} {ct : String}
    {e : TidyError} (h : findHeaderRow g = .error e) :
    tidyFromGrid g st ct = .error e := by
  unfold tidyFromGrid
  rw [h]

/-- Membership in the emitted record list (lines 74–89): a record is exactly a
variable row crossed with a retained year column whose cell is non-blank. -/
theorem mem_buildRecords {g : Grid} {st : Option String} {ct : String}
    {vars : List (String × ℕ)} {cols : List (ℤ × ℕ)} {rec : Obs} :
    rec ∈ buildRecords g st ct vars cols ↔
      ∃ lr ∈ vars, ∃ yc ∈ cols, (g.cell lr.2 yc.2).isna = false ∧
        rec = ⟨st, ct, lr.1, yc.1, g.cell lr.2 yc.2⟩ := by
  unfold buildRecords
  simp only [List.mem_flatMap, List.mem_filterMap]
  constructor
  · rintro ⟨lr, hlr, yc, hyc, hif⟩
    by_cases hna : (g.cell lr.2 yc.2).isna
    · simp [hna] at hif
    · simp only [Bool.not_eq_true] at hna
      simp only [hna, Bool.false_eq_true, if_false, Option.some.injEq] at hif
      exact ⟨lr, hlr, yc, hyc, hna, hif.symm⟩
  · rintro ⟨lr, hlr, yc, hyc, hna, rfl⟩
    exact ⟨lr, hlr, yc, hyc, by simp [hna]⟩

/-- With no retained year column, no record is emitted. -/
theorem buildRecords_nil_cols (g : Grid) (st : Option String) (ct : String)
    (vars : List (String × ℕ)) :
    buildRecords g st ct vars [] = [] := by
  unfold buildRecords
  induction vars with
  | nil => rfl
  | cons lr rest ih => simp [ih]

/-- Every pair produced by the year-column loop comes from a processed column
whose header cell is non-blank, whose data segment has a non-blank nonzero
value, and whose header converts to the recorded year. -/
theorem yearColsAux_ok_mem {g : Grid} {y : ℕ} :
    ∀ {cs : List ℕ} {L : List (ℤ × ℕ)}, yearColsAux g y cs = .ok L →
      ∀ p ∈ L, p.2 ∈ cs ∧ (g.cell y p.2).isna = false ∧
        segmentHasData g (y + 2) (min 27 (g.nrows - 1)) p.2 = true ∧
        pyInt (g.cell y p.2) = some p.1 := by
  intro cs
  induction cs with
  | nil =>
    intro L h p hp
    unfold yearColsAux at h
    cases h
    simp at hp
  | cons c rest ih =>
    intro L h p hp
    unfold yearColsAux at h
    by_cases hna : (g.cell y c).isna
    · rw [if_pos hna] at h
      rcases ih h p hp with ⟨h1, h2, h3, h4⟩
      exact ⟨List.mem_cons_of_mem _ h1, h2, h3, h4⟩
    · rw [if_neg hna] at h
      by_cases hguard : y + 2 > min 27 (g.nrows - 1)
      · rw [if_pos hguard] at h
        rcases ih h p hp with ⟨h1, h2, h3, h4⟩
        exact ⟨List.mem_cons_of_mem _ h1, h2, h3, h4⟩
      · rw [if_neg hguard] at h
        by_cases hdata : segmentHasData g (y + 2) (min 27 (g.nrows - 1)) c
        · rw [if_pos hdata] at h
          cases hpi : pyInt (g.cell y c) with
          | none => rw [hpi] at h; cases h
          | some n =>
            rw [hpi] at h
            cases hrec : yearColsAux g y rest with
            | error e => rw [hrec] at h; cases h
            | ok others =>
              rw [hrec] at h
              cases h
              rcases List.mem_cons.mp hp with rfl | hp'
              · exact ⟨List.mem_cons_self _ _, by simpa using hna, hdata, hpi⟩
              · rcases ih hrec p hp' with ⟨h1, h2, h3, h4⟩
                exact ⟨List.mem_cons_of_mem _ h1, h2, h3, h4⟩
        · rw [if_neg hdata] at h
          rcases ih h p hp with ⟨h1, h2, h3, h4⟩
          exact ⟨List.mem_cons_of_mem _ h1, h2, h3, h4⟩

/-- A processed column with a non-blank header, a non-empty inspection range
and a data-bearing segment is retained with its converted year. -/
theorem yearColsAux_retain {g : Grid} {y : ℕ} :
    ∀ {cs : List ℕ} {L : List (ℤ × ℕ)}, yearColsAux g y cs = .ok L →
      ∀ c ∈ cs, (g.cell y c).isna = false →
        y + 2 ≤ min 27 (g.nrows - 1) →
        segmentHasData g (y + 2) (min 27 (g.nrows - 1)) c = true →
        ∀ n, pyInt (g.cell y c) = some n → (n, c) ∈ L := by
  intro cs
  induction cs with
  | nil => intro L _ c hc; simp at hc
  | cons c' rest ih =>
    intro L h c hc hna hle hdata n hpi
    unfold yearColsAux at h
    rcases List.mem_cons.mp hc with rfl | hc'
    · rw [if_neg (by simp [hna]), if_neg (by omega), if_pos hdata, hpi] at h
      cases hrec : yearColsAux g y rest with
      | error e => rw [hrec] at h; cases h
      | ok others => rw [hrec] at h; cases h; exact List.mem_cons_self _ _
    · by_cases hna' : (g.cell y c').isna
      · rw [if_pos hna'] at h
        exact ih h c hc' hna hle hdata n hpi
      · rw [if_neg hna'] at h
        rw [if_neg (by omega)] at h
        by_cases hdata' : segmentHasData g (y + 2) (min 27 (g.nrows - 1)) c'
        · rw [if_pos hdata'] at h
          cases hpi' : pyInt (g.cell y c') with
          | none => rw [hpi'] at h; cases h
          | some n' =>
            rw [hpi'] at h
            cases hrec : yearColsAux g y rest with
            | error e => rw [hrec] at h; cases h
            | ok others =>
              rw [hrec] at h
              cases h
              exact List.mem_cons_of_mem _ (ih hrec c hc' hna hle hdata n hpi)
        · rw [if_neg hdata'] at h
          exact ih h c hc' hna hle hdata n hpi

/-- When the first data row lies past the inspection ceiling, every candidate
column is skipped by the start-exceeds-end guard. -/
theorem yearColsAux_guard_nil {g : Grid} {y : ℕ}
    (h : min 27 (g.nrows - 1) < y + 2) :
    ∀ cs : List ℕ, yearColsAux g y cs = .ok [] := by
  intro cs
  induction cs with
  | nil => rfl
  | cons c rest ih =>
    unfold yearColsAux
    by_cases hna : (g.cell y c).isna
    · rw [if_pos hna]; exact ih
    · rw [if_neg hna, if_pos (by omega)]; exact ih

/-- Scan step on a blank-labelled row. -/
theorem scanVarRowsAux_cons_none {g : Grid} {s r : ℕ} {rest : List ℕ}
    (h : rowLabel (g.cell r 0) = none) :
    scanVarRowsAux g s (r :: rest) =
      if s + 1 ≥ 5 then [] else scanVarRowsAux g (s + 1) rest := by
  conv_lhs => unfold scanVarRowsAux
  rw [h]

/-- Scan step on a labelled row. -/
theorem scanVarRowsAux_cons_some {g : Grid} {s r : ℕ} {rest : List ℕ} {lab : String}
    (h : rowLabel (g.cell r 0) = some lab) :
    scanVarRowsAux g s (r :: rest) = (lab, r) :: scanVarRowsAux g 0 rest := by
  conv_lhs => unfold scanVarRowsAux
  rw [h]

/-- Once only blank rows can precede the streak reaching 5, the scan records
nothing further. -/
theorem scanVarRowsAux_all_blank_nil {g : Grid} :
    ∀ t s a m : ℕ, s + t = 5 → s ≤ 4 → t ≤ m →
      (∀ k < t, rowLabel (g.cell (a + k) 0) = none) →
      scanVarRowsAux g s (List.range' a m) = [] := by
  intro t
  induction t with
  | zero => intro s a m h5 h4 _ _; omega
  | succ t ih =>
    intro s a m h5 h4 htm hbl
    obtain ⟨m', rfl⟩ : ∃ m', m = m' + 1 := ⟨m - 1, by omega⟩
    rw [List.range'_succ]
    rw [scanVarRowsAux_cons_none (by simpa using hbl 0 (by omega))]
    by_cases h15 : s + 1 ≥ 5
    · rw [if_pos h15]
    · rw [if_neg h15]
      refine ih (s + 1) (a + 1) m' (by omega) (by omega) (by omega) ?_
      intro k hk
      have h' := hbl (k + 1) (by omega)
      rwa [show a + 1 + k = a + (k + 1) from by omega]

/-- If a run of 5 consecutive blank-labelled rows starts at row `j` inside the
scanned range, every recorded variable row lies strictly above `j`. -/
theorem scanVarRowsAux_lt_of_blank_run {g : Grid} {j : ℕ}
    (hbl : ∀ k < 5, rowLabel (g.cell (j + k) 0) = none) :
    ∀ m a s : ℕ, s ≤ 4 → a ≤ j → j + 4 < a + m →
      ∀ p ∈ scanVarRowsAux g s (List.range' a m), p.2 < j := by
  intro m
  induction m with
  | zero => intro a s _ ha hm; exact absurd hm (by omega)
  | succ m ih =>
    intro a s hs ha hm p hp
    rw [List.range'_succ] at hp
    cases hl : rowLabel (g.cell a 0) with
    | none =>
      rw [scanVarRowsAux_cons_none hl] at hp
      by_cases h15 : s + 1 ≥ 5
      · rw [if_pos h15] at hp; simp at hp
      · rw [if_neg h15] at hp
        rcases Nat.lt_or_ge a j with haj | haj
        · exact ih (a + 1) (s + 1) (by omega) (by omega) (by omega) p hp
        · have haj' : a = j := le_antisymm ha haj
          subst haj'
          rw [scanVarRowsAux_all_blank_nil (5 - (s + 1)) (s + 1) (a + 1) m
            (by omega) (by omega) (by omega) ?_] at hp
          · simp at hp
          · intro k hk
            have h' := hbl (k + 1) (by omega)
            rwa [show a + 1 + k = a + (k + 1) from by omega]
    | some lab =>
      rw [scanVarRowsAux_cons_some hl] at hp
      have haj : a < j := by
        rcases Nat.lt_or_ge a j with h' | h'
        · exact h'
        · exfalso
          have ha' : a = j := le_antisymm ha h'
          subst ha'
          have h0 : rowLabel (g.cell a 0) = none := by simpa using hbl 0 (by omega)
          rw [h0] at hl
          cases hl
      rcases List.mem_cons.mp hp with rfl | hp'
      · exact haj
      · exact ih (a + 1) 0 (by omega) (by omega) (by omega) p hp'

/-- A name with no underscore splits to `none`. -/
theorem splitFirstUnderscore_eq_none : ∀ {l : List Char}, '_' ∉ l →
    splitFirstUnderscore l = none := by
  intro l
  induction l with
  | nil => intro _; rfl
  | cons ch rest ih =>
    intro h
    have h1 : ¬(ch = '_') := fun hc => h (by rw [hc]; exact List.mem_cons_self _ _)
    have h2 : '_' ∉ rest := fun hc => h (List.mem_cons_of_mem _ hc)
    conv_lhs => unfold splitFirstUnderscore
    rw [if_neg h1, ih h2]

/-- Splitting at the first underscore of `pre ++ '_' :: post` when `pre` has
no underscore. -/
theorem splitFirstUnderscore_append : ∀ {pre : List Char} (post : List Char), '_' ∉ pre →
    splitFirstUnderscore (pre ++ '_' :: post) = some (pre, post) := by
  intro pre
  induction pre with
  | nil => intro post _; rfl
  | cons ch rest ih =>
    intro post h
    have h1 : ¬(ch = '_') := fun hc => h (by rw [hc]; exact List.mem_cons_self _ _)
    have h2 : '_' ∉ rest := fun hc => h (List.mem_cons_of_mem _ hc)
    show splitFirstUnderscore (ch :: (rest ++ '_' :: post)) = _
    conv_lhs => unfold splitFirstUnderscore
    rw [if_neg h1, ih post h2]

/-- Filtering through an if-guard and projecting is a sublist of the plain
projection. -/
theorem filterMap_ite_sublist {α β : Type} (P : α → Bool) (f : α → β) :
    ∀ l : List α,
      (l.filterMap (fun x => if P x then none else some (f x))).Sublist (l.map f) := by
  intro l
  induction l with
  | nil => simp
  | cons x rest ih =>
    rw [List.filterMap_cons, List.map_cons]
    by_cases h : P x
    · rw [if_pos h]
      exact ih.cons _
    · rw [if_neg h]
      exact ih.cons₂ _

/-- The keys of the emitted records, decomposed per variable row: the label is
fixed within a row and the years come from the retained columns whose cell is
non-blank. -/
theorem buildRecords_map_key (g : Grid) (st : Option String) (ct : String)
    (vars : List (String × ℕ)) (cols : List (ℤ × ℕ)) :
    (buildRecords g st ct vars cols).map Obs.key =
      vars.flatMap (fun lr =>
        (cols.filterMap
            (fun yc => if (g.cell lr.2 yc.2).isna then none else some yc.1)).map
          (fun n => (st, ct, lr.1, n))) := by
  unfold buildRecords
  rw [List.map_flatMap]
  congr 1
  funext lr
  rw [List.map_filterMap, List.map_filterMap]
  congr 1
  funext yc
  by_cases h : (g.cell lr.2 yc.2).isna <;> simp [h, Obs.key]

/-- With pairwise-distinct variable labels and pairwise-distinct retained
years, the grouping keys of one worksheet's records are pairwise distinct. -/
theorem buildRecords_keys_nodup (g : Grid) (st : Option String) (ct : String)
    (vars : List (String × ℕ)) (cols : List (ℤ × ℕ))
    (hv : (vars.map Prod.fst).Nodup) (hc : (cols.map Prod.fst).Nodup) :
    ((buildRecords g st ct vars cols).map Obs.key).Nodup := by
  rw [buildRecords_map_key]
  rw [List.nodup_flatMap]
  constructor
  · intro lr _
    refine List.Nodup.map ?_ (List.Nodup.sublist (filterMap_ite_sublist _ _ _) hc)
    intro a b hab
    simpa using hab
  · have hv' := (List.pairwise_map).mp hv
    refine hv'.imp ?_
    intro a b hab k hka hkb
    rcases List.mem_map.mp hka with ⟨n, _, rfl⟩
    rcases List.mem_map.mp hkb with ⟨n', _, hk⟩
    exact hab (congrArg (fun t => t.2.2.1) hk).symm

/-- Every key of one file's records carries that file's (state, city) pair. -/
theorem batch_block_key_pair {nm : String} {g : Grid} {k : Option String × String × String × ℤ}
    (hk : k ∈ ((tidy_from_file nm g).toOption.getD []).map Obs.key) :
    k.1 = (stateCityOfName nm).1 ∧ k.2.1 = (stateCityOfName nm).2 := by
  rcases List.mem_map.mp hk with ⟨rec, hrec, rfl⟩
  cases ht : tidy_from_file nm g with
  | error e => rw [ht] at hrec; simp [Except.toOption] at hrec
  | ok l =>
    rw [ht] at hrec
    simp only [Except.toOption, Option.getD_some] at hrec
    unfold tidy_from_file at ht
    rcases tidyFromGrid_ok_elim ht with ⟨y, cols, _, _, rfl⟩
    rcases mem_buildRecords.mp hrec with ⟨lr, _, yc, _, _, rfl⟩
    exact ⟨rfl, rfl⟩

/-- Successful header detection and year-column validation determine the
extraction result. -/
theorem tidyFromGrid_ok_intro {g : Grid} {st : Option String} {ct : String} {y : ℕ}
    {cols : List (ℤ × ℕ)} (hy : findHeaderRow g = .ok y)
    (hc : buildYearCols g y = .ok cols) :
    tidyFromGrid g st ct = .ok (buildRecords g st ct (varRows g y) cols) := by
  unfold tidyFromGrid
  rw [hy]
  show (match buildYearCols g y with
    | Except.error e => (Except.error e : Except TidyError (List Obs))
    | Except.ok cols => Except.ok (buildRecords g st ct (varRows g y) cols)) = _
  rw [hc]

/-! Claim theorems. -/

/-- C1: the spec and the function's own docstring (its Rule 2) require a
record from a row at or beyond worksheet row 29 (0-based index ≥ 28) to be
skipped when its value is exactly 0, but the emission loop of lines 74–89
checks only `pd.isna`: on `gridC1` the zero-valued record from 0-based row 28
(labelled "z") is emitted. -/
theorem C1_zero_at_row_29_emitted :
    gridC1.cell 28 4 = .num 0 ∧ rowLabel (gridC1.cell 28 0) = some "z" ∧
      tidy_from_file "X_Y.xlsx" gridC1 =
        .ok [⟨some "X", "Y", "a", 2020, .num 5⟩, ⟨some "X", "Y", "z", 2020, .num 0⟩] :=
  ⟨rfl, rfl, rfl⟩

/-- C2: when no cell of the detection column (index 4) is numeric in
[1900, 2100], header detection selects no row and the `.index[0]` lookup
fails (the IndexError the spec names MalformedWorksheetError), so the whole
extraction fails and no record list is produced. -/
theorem C2_no_header_fails (g : Grid) (base : String) (hc : 4 < g.ncols)
    (h : ∀ r < g.nrows, isYearLike (g.cell r 4) = false) :
    tidy_from_file base g = .error .indexError ∧
      ∀ l : List Obs, tidy_from_file base g ≠ .ok l := by
  have hfind : (List.range g.nrows).find? (fun r => isYearLike (g.cell r 4)) = none := by
    rw [List.find?_eq_none]
    intro x hx
    rw [h x (List.mem_range.mp hx)]
    simp
  have hhead : findHeaderRow g = .error .indexError := by
    unfold findHeaderRow
    rw [if_neg (by omega), hfind]
  have herr : tidy_from_file base g = .error .indexError := by
    unfold tidy_from_file
    exact tidyFromGrid_error_of_header hhead
  exact ⟨herr, fun l hl => by rw [herr] at hl; cases hl⟩

/-- C2 witness: the fully blank worksheet `gridC2` has no year-like value in
column 4 and extraction fails on it. -/
theorem C2_no_header_fails_witness :
    tidy_from_file "A_B.xlsx" gridC2 = .error .indexError :=
  (C2_no_header_fails gridC2 "A_B.xlsx" (by decide) (by decide)).1

/-- C3 counterexample: the text cell "n/a" in `gridC3` is non-blank, so the
code emits it verbatim; the emitted record's value is a text value, refuting
"the value field is numeric, never a text value". -/
theorem C3_text_value_emitted :
    tidy_from_file "AZ_Bullhead_City.xlsx" gridC3 =
      .ok [⟨some "AZ", "Bullhead_City", "lab", 2020, .txt "n/a"⟩] := rfl

/-- C3 amended: every emitted record's value is non-blank and is a worksheet
cell value taken verbatim (numeric or text, never recomputed). -/
theorem C3_value_verbatim (g : Grid) (st : Option String) (ct : String) (l : List Obs)
    (h : tidyFromGrid g st ct = .ok l) :
    ∀ rec ∈ l, rec.value.isna = false ∧ ∃ r c, rec.value = g.cell r c := by
  rcases tidyFromGrid_ok_elim h with ⟨y, cols, _, _, rfl⟩
  intro rec hrec
  rcases mem_buildRecords.mp hrec with ⟨lr, _, yc, _, hna, rfl⟩
  exact ⟨hna, lr.2, yc.2, rfl⟩

/-- C3 witness: the record extracted from `gridC3` has a non-blank verbatim
cell value. -/
theorem C3_value_verbatim_witness :
    (Obs.mk (some "AZ") "Bullhead_City" "lab" 2020 (.txt "n/a")).value.isna = false ∧
      ∃ r c, (Obs.mk (some "AZ") "Bullhead_City" "lab" 2020 (.txt "n/a")).value =
        gridC3.cell r c :=
  C3_value_verbatim gridC3 (some "AZ") "Bullhead_City"
    [⟨some "AZ", "Bullhead_City", "lab", 2020, .txt "n/a"⟩] rfl
    ⟨some "AZ", "Bullhead_City", "lab", 2020, .txt "n/a"⟩ (by simp)

/-- C4 counterexample: with the single file "A_B.xlsx" (filenames trivially
pairwise distinct) two variable rows of `gridC4` share the label "x", so two
records share the grouping key (some "A", "B", "x", 2020); moreover the two
distinct filenames "A_B.xls" and "A_B.xlsx" yield the same (region, locality)
pair, duplicating whole records across files. -/
theorem C4_duplicate_keys :
    (batchRecords [("A_B.xlsx", gridC4)] =
        [⟨some "A", "B", "x", 2020, .num 1⟩, ⟨some "A", "B", "x", 2020, .num 2⟩] ∧
      Obs.key ⟨some "A", "B", "x", 2020, .num 1⟩ =
        Obs.key ⟨some "A", "B", "x", 2020, .num 2⟩) ∧
    batchRecords [("A_B.xls", gridC4b), ("A_B.xlsx", gridC4b)] =
      [⟨some "A", "B", "x", 2020, .num 1⟩, ⟨some "A", "B", "x", 2020, .num 1⟩] :=
  ⟨⟨rfl, rfl⟩, rfl⟩

/-- C4 amended: concatenating extractor output from N worksheets and grouping
by (region, locality, variable, year) yields no duplicate keys, provided the
filename-derived (region, locality) pairs are pairwise distinct and, within
each worksheet, the recorded variable labels and the retained year values are
pairwise distinct. -/
theorem C4_no_duplicate_keys (ws : List (String × Grid))
    (hsc : (ws.map (fun p => stateCityOfName p.1)).Nodup)
    (hper : ∀ p ∈ ws, ∀ y, findHeaderRow p.2 = .ok y →
      ((varRows p.2 y).map Prod.fst).Nodup ∧
      ∀ cols, buildYearCols p.2 y = .ok cols → (cols.map Prod.fst).Nodup) :
    ((batchRecords ws).map Obs.key).Nodup := by
  unfold batchRecords
  rw [List.map_flatten, List.map_map]
  rw [List.nodup_flatten]
  constructor
  · intro x hx
    rcases List.mem_map.mp hx with ⟨p, hp, rfl⟩
    cases ht : tidy_from_file p.1 p.2 with
    | error e => simp [Function.comp, Except.toOption, ht]
    | ok l =>
      have hl := ht
      unfold tidy_from_file at hl
      rcases tidyFromGrid_ok_elim hl with ⟨y, cols, hy, hcols, rfl⟩
      rcases hper p hp y hy with ⟨hv, hcf⟩
      simp only [Function.comp, ht, Except.toOption, Option.getD_some]
      exact buildRecords_keys_nodup _ _ _ _ _ hv (hcf cols hcols)
  · rw [List.pairwise_map]
    have hsc' := (List.pairwise_map).mp hsc
    refine hsc'.imp ?_
    intro p q hpq k hkp hkq
    rcases batch_block_key_pair hkp with ⟨h1, h2⟩
    rcases batch_block_key_pair hkq with ⟨h1', h2'⟩
    refine hpq (Prod.ext ?_ ?_)
    · rw [← h1, ← h1']
    · rw [← h2, ← h2']

/-- C4 witness: a two-file batch with distinct (region, locality) pairs,
distinct labels and distinct retained years has pairwise-distinct keys. -/
theorem C4_no_duplicate_keys_witness :
    ((batchRecords [("A_B.xlsx", gridC4w), ("C_D.xlsx", gridC4b)]).map Obs.key).Nodup := by
  refine C4_no_duplicate_keys _ (by decide) ?_
  intro p hp y hy
  fin_cases hp
  · have h' : (Except.ok 0 : Except TidyError ℕ) = Except.ok y :=
      (rfl : findHeaderRow gridC4w = Except.ok 0).symm.trans hy
    injection h' with h''
    subst h''
    refine ⟨by decide, ?_⟩
    intro cols hcols
    have h2 : (Except.ok [((2020 : ℤ), (4 : ℕ))] : Except TidyError (List (ℤ × ℕ))) =
        Except.ok cols :=
      (rfl : buildYearCols gridC4w 0 = Except.ok [((2020 : ℤ), (4 : ℕ))]).symm.trans hcols
    injection h2 with h3
    rw [← h3]
    decide
  · have h' : (Except.ok 0 : Except TidyError ℕ) = Except.ok y :=
      (rfl : findHeaderRow gridC4b = Except.ok 0).symm.trans hy
    injection h' with h''
    subst h''
    refine ⟨by decide, ?_⟩
    intro cols hcols
    have h2 : (Except.ok [((2020 : ℤ), (4 : ℕ))] : Except TidyError (List (ℤ × ℕ))) =
        Except.ok cols :=
      (rfl : buildYearCols gridC4b 0 = Except.ok [((2020 : ℤ), (4 : ℕ))]).symm.trans hcols
    injection h2 with h3
    rw [← h3]
    decide

/-- C5 counterexample: in `gridC5` the header cell of column 5 is the
non-blank text "abc" and its data segment holds the nonzero value 3; the
claim requires the pair to be retained in the Year Column Set, but
`int("abc")` raises ValueError and the whole extraction aborts, so no Year
Column Set (and no record set) exists at all. -/
theorem C5_text_header_aborts :
    (gridC5.cell 0 5).isna = false ∧ nonZeroData (gridC5.cell 2 5) = true ∧
      buildYearCols gridC5 0 = .error .valueError ∧
      tidy_from_file "A_B.xlsx" gridC5 = .error .valueError :=
  ⟨rfl, rfl, rfl, rfl⟩

/-- C5 amended: a candidate year column whose data segment (rows
`header + 2` through `min 27 (nrows - 1)`, inclusive) has no non-blank
nonzero cell is discarded and never appears in the Year Column Set;
otherwise, when the header cell converts to an integer year, the pair is
retained.  (A non-blank header that does not convert aborts the extraction
with a ValueError.) -/
theorem C5_year_column_validation (g : Grid) (y c : ℕ) (cols : List (ℤ × ℕ))
    (hok : buildYearCols g y = .ok cols)
    (hbl : (g.cell y c).isna = false) :
    (segmentHasData g (y + 2) (min 27 (g.nrows - 1)) c = false →
      ∀ p ∈ cols, p.2 ≠ c) ∧
    (4 ≤ c → c < g.ncols → y + 2 ≤ min 27 (g.nrows - 1) →
      segmentHasData g (y + 2) (min 27 (g.nrows - 1)) c = true →
      ∀ n, pyInt (g.cell y c) = some n → (n, c) ∈ cols) := by
  unfold buildYearCols at hok
  constructor
  · intro hnd p hp hpc
    have hdata := (yearColsAux_ok_mem hok p hp).2.2.1
    rw [hpc, hnd] at hdata
    cases hdata
  · intro hc4 hclt hle hdata n hpi
    refine yearColsAux_retain hok c ?_ hbl hle hdata n hpi
    exact List.mem_map.mpr ⟨c - 4, List.mem_range.mpr (by omega), by omega⟩

/-- C5 witness: in `gridC5w` the numeric header 2020 over the nonzero value 7
is retained. -/
theorem C5_year_column_validation_witness :
    ((2020 : ℤ), (4 : ℕ)) ∈ [((2020 : ℤ), (4 : ℕ))] :=
  (C5_year_column_validation gridC5w 0 4 [((2020 : ℤ), (4 : ℕ))] rfl rfl).2
    (by omega) (by decide) (by decide) rfl 2020 rfl

/-- C6: the variable-row scan stops at the first run of 5 consecutive
blank-labelled rows: whenever rows j … j+4 of the scanned range all have a
blank first-column cell, every recorded variable row lies strictly above j,
so no row at or below the run is ever recorded, even a labelled one. -/
theorem C6_blank_run_stops_scan (g : Grid) (y j : ℕ)
    (_hy : findHeaderRow g = .ok y) (hj : y + 2 ≤ j) (hend : j + 4 < g.nrows)
    (hbl : ∀ k < 5, rowLabel (g.cell (j + k) 0) = none) :
    ∀ p ∈ varRows g y, p.2 < j := by
  unfold varRows
  exact scanVarRowsAux_lt_of_blank_run hbl (g.nrows - (y + 2)) (y + 2) 0
    (by omega) hj (by omega)

/-- C6 witness: in `gridC6w` rows 3–7 are blank, so only the row-2 variable
is recorded and the labelled row 8 below the run is not. -/
theorem C6_blank_run_stops_scan_witness :
    varRows gridC6w 0 = [("a", 2)] ∧ (("a", 2) : String × ℕ).2 < 3 :=
  ⟨rfl, C6_blank_run_stops_scan gridC6w 0 3 rfl (by omega) (by decide) (by decide)
    ("a", 2) (by decide)⟩

/-- C7: every emitted record arises from a recorded Variable Row crossed with
a retained Year Column whose cell at that position is non-blank, and carries
exactly that cell value. -/
theorem C7_records_from_scan (g : Grid) (st : Option String) (ct : String) (l : List Obs)
    (h : tidyFromGrid g st ct = .ok l) :
    ∀ rec ∈ l, ∃ y cols, findHeaderRow g = .ok y ∧ buildYearCols g y = .ok cols ∧
      ∃ lr ∈ varRows g y, ∃ yc ∈ cols,
        (g.cell lr.2 yc.2).isna = false ∧
        rec = ⟨st, ct, lr.1, yc.1, g.cell lr.2 yc.2⟩ := by
  rcases tidyFromGrid_ok_elim h with ⟨y, cols, hy, hcols, rfl⟩
  intro rec hrec
  rcases mem_buildRecords.mp hrec with ⟨lr, hlr, yc, hyc, hna, rfl⟩
  exact ⟨y, cols, hy, hcols, lr, hlr, yc, hyc, hna, rfl⟩

/-- C7 witness: the record of `gridC3` arises from its variable row and its
retained year column. -/
theorem C7_records_from_scan_witness :
    ∃ y cols, findHeaderRow gridC3 = .ok y ∧ buildYearCols gridC3 y = .ok cols ∧
      ∃ lr ∈ varRows gridC3 y, ∃ yc ∈ cols,
        (gridC3.cell lr.2 yc.2).isna = false ∧
        (⟨some "AZ", "Bullhead_City", "lab", 2020, .txt "n/a"⟩ : Obs) =
          ⟨some "AZ", "Bullhead_City", lr.1, yc.1, gridC3.cell lr.2 yc.2⟩ :=
  C7_records_from_scan gridC3 (some "AZ") "Bullhead_City"
    [⟨some "AZ", "Bullhead_City", "lab", 2020, .txt "n/a"⟩] rfl
    ⟨some "AZ", "Bullhead_City", "lab", 2020, .txt "n/a"⟩ (by simp)

/-- C8: the (region, locality) pair comes from splitting the
extension-stripped base name at the first underscore only: with an
underscore, the region is the text before it and the locality the entire
remainder; with none, the region is unset and the locality is the whole
name. -/
theorem C8_filename_split (base : String) :
    ('_' ∉ (stripExt base).toList → stateCityOfName base = (none, stripExt base)) ∧
    (∀ pre post : List Char, (stripExt base).toList = pre ++ '_' :: post → '_' ∉ pre →
      stateCityOfName base = (some ⟨pre⟩, ⟨post⟩)) := by
  constructor
  · intro h
    simp only [stateCityOfName]
    rw [splitFirstUnderscore_eq_none h]
  · intro pre post heq hpre
    simp only [stateCityOfName]
    rw [heq, splitFirstUnderscore_append post hpre]

/-- C8 witness: the two concrete filenames of the specification. -/
theorem C8_filename_split_witness :
    stateCityOfName "AZ_Bullhead_City.xlsx" = (some "AZ", "Bullhead_City") ∧
      stateCityOfName "UnknownPlace.xlsx" = (none, "UnknownPlace") :=
  ⟨(C8_filename_split "AZ_Bullhead_City.xlsx").2 "AZ".toList "Bullhead_City".toList
      rfl (by decide),
    (C8_filename_split "UnknownPlace.xlsx").1 (by decide)⟩

/-- C9: the extraction is a pure function of the base filename and the loaded
grid — the embedding takes no other argument and reads no ambient state — so
two invocations on equal inputs return identical record sequences. -/
theorem C9_deterministic (b b' : String) (g g' : Grid) (hb : b = b') (hg : g = g') :
    tidy_from_file b g = tidy_from_file b' g' := by
  rw [hb, hg]

/-- C9 witness: two runs on the same worksheet agree. -/
theorem C9_deterministic_witness :
    tidy_from_file "AZ_Bullhead_City.xlsx" gridC3 =
      tidy_from_file "AZ_Bullhead_City.xlsx" gridC3 :=
  C9_deterministic _ _ _ _ rfl rfl

/-- C10: when the detected header row has 0-based index ≥ 26, the first data
row (header + 2) lies past the index-27 inspection ceiling, the
start-exceeds-end guard discards every candidate column, the Year Column Set
is empty and the extraction returns an empty record list without error. -/
theorem C10_late_header_empty (g : Grid) (st : Option String) (ct : String) (y : ℕ)
    (hy : findHeaderRow g = .ok y) (h26 : 26 ≤ y) :
    buildYearCols g y = .ok [] ∧ tidyFromGrid g st ct = .ok [] := by
  have hguard : min 27 (g.nrows - 1) < y + 2 := by
    have hm := Nat.min_le_left 27 (g.nrows - 1)
    omega
  have hcols : buildYearCols g y = .ok [] := yearColsAux_guard_nil hguard _
  refine ⟨hcols, ?_⟩
  rw [tidyFromGrid_ok_intro hy hcols, buildRecords_nil_cols]

/-- C10 witness: `gridC10w` has its header at row 26 and extracts to an empty
record list without error. -/
theorem C10_late_header_empty_witness :
    buildYearCols gridC10w 26 = .ok [] ∧
      tidyFromGrid gridC10w (some "A") "B" = .ok [] :=
  C10_late_header_empty gridC10w (some "A") "B" 26 rfl (by omega)

end FinanceDecoder
